import Mathlib

/-!
Verification of the query-dispatch core of `src/engine/engine.cpp`:
the `Engine::EngineLock` query-count barrier, the `RunQuery` gate
protocol around generation swaps, and the `Engine::Engine` constructor.
Each C++ function is embedded as an executable Lean definition; the
locking and watchdog interactions are made observable as event traces.
-/

namespace Osrm

/-- `osrm::engine::Status`, returned by every plugin handler. -/
inductive Status
  | Ok
  | Error
deriving DecidableEq, Repr

/-- A `shared_ptr<BaseDataFacade>`: a reference-counted handle to one
dataset generation.  `gen` identifies the generation (shared-memory
region), `useCount` is the value `use_count()` would report. -/
structure Facade where
  gen : Nat
  useCount : Nat
deriving DecidableEq, Repr

/-- Snapshot of the `DataWatchdog` as observed by one `RunQuery` call:
what `HasNewRegion()` returns, and what `MaybeLoadNewRegion()` would
return (`none` when no new facade can be produced). -/
structure Watchdog where
  hasNewRegion : Bool
  newFacade : Option Facade
deriving DecidableEq, Repr

/-- Observable events of the gate protocol in `RunQuery`
(engine.cpp lines 98-137). -/
inductive Event
  | increaseQueryCount
  | acquireTransition
  | checkNewRegion (result : Bool)
  | loadNewRegion (result : Option Facade)
  | assertUseCountOne (actual : Nat)
  | destroyOld (gen : Nat)
  | releaseTransition
  | handlerCall (gen : Nat)
  | decreaseQueryCount
  | waitQuiescence
deriving DecidableEq, Repr

/-- The swap block of `RunQuery` (engine.cpp lines 113-131), executed
while holding `facade_update_mutex`: check `HasNewRegion()`; only if it
returns true call `MaybeLoadNewRegion()`; if that yields a facade,
assert `facade.use_count() == 1`, destroy the old facade and install
the new one.  Returns the facade current after the block, plus the
trace of watchdog/assert events. -/
def swapBlock (w : Watchdog) (facade : Facade) : Facade × List Event :=
  if w.hasNewRegion then
    match w.newFacade with
    | some new_facade =>
        (new_facade,
         [Event.checkNewRegion true, Event.loadNewRegion (some new_facade),
          Event.assertUseCountOne facade.useCount, Event.destroyOld facade.gen])
    | none =>
        (facade, [Event.checkNewRegion true, Event.loadNewRegion none])
  else
    (facade, [Event.checkNewRegion false])

/-- `RunQuery` (engine.cpp lines 89-137).  `lock` is whether the
`EngineLock` exists (shared mode); `plugin` abstracts
`plugin.HandleRequest(facade, parameters, result)` as a function from
the facade generation it is handed to the `Status` it reports.
Returns the status returned to the caller, the facade current after
the call, and the trace of gate events in execution order. -/
def RunQuery (lock : Bool) (w : Watchdog) (facade : Facade)
    (plugin : Nat → Status) : Status × Facade × List Event :=
  if !lock then
    (plugin facade.gen, facade, [Event.handlerCall facade.gen])
  else
    let swapped := swapBlock w facade
    (plugin swapped.1.gen, swapped.1,
      [Event.increaseQueryCount, Event.acquireTransition] ++ swapped.2 ++
      [Event.releaseTransition, Event.handlerCall swapped.1.gen,
       Event.decreaseQueryCount])

/-- `Engine::EngineLock::IncreaseQueryCount` (engine.cpp lines 66-81):
increments `barrier.number_of_queries`. -/
def increaseQueryCount (n : Int) : Int := n + 1

/-- `Engine::EngineLock::DecreaseQueryCount` (engine.cpp lines 48-63):
decrements `barrier.number_of_queries`; returns the new count and
whether `no_running_queries_condition.notify_all()` was performed. -/
def decreaseQueryCount (n : Int) : Int × Bool :=
  (n - 1, decide (n - 1 = 0))

/-- Lock/counter events inside the two `EngineLock` operations. -/
inductive LockEvent
  | lockPendingUpdate
  | lockQuery
  | unlockPendingUpdate
  | incrementCount
  | decrementCount
  | notifyAll
  | unlockQuery
deriving DecidableEq, Repr

/-- Event trace of `IncreaseQueryCount` (engine.cpp lines 66-81): lock
`pending_update_mutex`, lock `query_mutex`, unlock
`pending_update_mutex`, increment the count; the scoped `query_lock`
is released when the function returns. -/
def increaseQueryCountTrace : List LockEvent :=
  [LockEvent.lockPendingUpdate, LockEvent.lockQuery,
   LockEvent.unlockPendingUpdate, LockEvent.incrementCount,
   LockEvent.unlockQuery]

/-- Event trace of `DecreaseQueryCount` (engine.cpp lines 48-63) when
the count before the call is `n`: lock `query_mutex`, decrement,
notify all waiters exactly when the new count is zero, release the
scoped lock on return. -/
def decreaseQueryCountTrace (n : Int) : List LockEvent :=
  [LockEvent.lockQuery, LockEvent.decrementCount] ++
  (if n - 1 = 0 then [LockEvent.notifyAll] else []) ++
  [LockEvent.unlockQuery]

/-- One barrier operation in an interleaving of gate calls. -/
inductive GateOp
  | increase
  | decrease
deriving DecidableEq, Repr

/-- The effect of one gate operation on `barrier.number_of_queries`.
Each operation is atomic with respect to the count because both
functions hold `query_mutex` around their update. -/
def applyOp (n : Int) : GateOp → Int
  | GateOp.increase => increaseQueryCount n
  | GateOp.decrease => (decreaseQueryCount n).1

/-- Run a serialized interleaving of gate operations from count `n`. -/
def runOps (ops : List GateOp) (n : Int) : Int := ops.foldl applyOp n

/-- Number of `IncreaseQueryCount` calls in an interleaving. -/
def countInc (ops : List GateOp) : Nat := ops.count GateOp.increase

/-- Number of `DecreaseQueryCount` calls in an interleaving. -/
def countDec (ops : List GateOp) : Nat := ops.count GateOp.decrease

theorem runOps_eq (ops : List GateOp) (n : Int) :
    runOps ops n = n + (countInc ops : Int) - (countDec ops : Int) := by
  induction ops generalizing n with
  | nil => simp [runOps, countInc, countDec]
  | cons op rest ih =>
    have h := ih (applyOp n op)
    cases op with
    | increase =>
      simp only [runOps, List.foldl_cons] at h ⊢
      rw [h]
      simp [countInc, countDec, List.count_cons, applyOp, increaseQueryCount,
        beq_iff_eq]
      ring
    | decrease =>
      simp only [runOps, List.foldl_cons] at h ⊢
      rw [h]
      simp [countInc, countDec, List.count_cons, applyOp, decreaseQueryCount,
        beq_iff_eq]
      ring

/-- Claim C2: for any serialized interleaving of `IncreaseQueryCount`
and `DecreaseQueryCount` calls in which every decrease is matched by a
preceding increase, `barrier.number_of_queries` never goes negative,
and once the increases and decreases balance it equals zero. -/
theorem queryCount_nonneg_and_zero (ops : List GateOp)
    (h : ∀ i, i ≤ ops.length → countDec (ops.take i) ≤ countInc (ops.take i)) :
    (∀ i, 0 ≤ runOps (ops.take i) 0) ∧
    (countInc ops = countDec ops → runOps ops 0 = 0) := by
  constructor
  · intro i
    rcases le_or_lt i ops.length with hle | hlt
    · have hi := h i hle
      rw [runOps_eq]
      omega
    · have hto : ops.take i = ops := List.take_of_length_le (le_of_lt hlt)
      have hi := h ops.length (le_refl _)
      rw [List.take_length] at hi
      rw [hto, runOps_eq]
      omega
  · intro he
    rw [runOps_eq, he]
    omega

/-- Witness for C2: 50 `IncreaseQueryCount` calls followed by 50
`DecreaseQueryCount` calls leave the count at zero. -/
theorem queryCount_nonneg_and_zero_witness :
    runOps (List.replicate 50 GateOp.increase ++
      List.replicate 50 GateOp.decrease) 0 = 0 :=
  (queryCount_nonneg_and_zero _ (by decide)).2 (by decide)

/-- Claim C6: `DecreaseQueryCount` performs
`no_running_queries_condition.notify_all()` exactly when the decrement
brings the count to zero; a decrement to a nonzero value performs no
notification. -/
theorem decreaseQueryCount_notify_iff_zero (n : Int) :
    ((decreaseQueryCount n).2 = true ↔ (decreaseQueryCount n).1 = 0) ∧
    (LockEvent.notifyAll ∈ decreaseQueryCountTrace n ↔
      (decreaseQueryCount n).1 = 0) := by
  unfold decreaseQueryCount decreaseQueryCountTrace
  constructor
  · simp
  · split <;> simp_all

/-- Witness for C6: a decrement from 1 reaches zero and notifies; the
membership direction is exercised at count 1. -/
theorem decreaseQueryCount_notify_iff_zero_witness :
    LockEvent.notifyAll ∈ decreaseQueryCountTrace 1 :=
  (decreaseQueryCount_notify_iff_zero 1).2.mpr (by decide)

/-- Claim C10: `IncreaseQueryCount` locks `pending_update_mutex`
before `query_mutex` and unlocks `pending_update_mutex` before
incrementing the count; its very first action is taking the
pending-update mutex (so admission blocks while an updater holds it),
while `DecreaseQueryCount` never touches the pending-update mutex (so
already-admitted queries are unaffected). -/
theorem increaseQueryCount_lock_order :
    increaseQueryCountTrace.indexOf LockEvent.lockPendingUpdate <
      increaseQueryCountTrace.indexOf LockEvent.lockQuery ∧
    increaseQueryCountTrace.indexOf LockEvent.unlockPendingUpdate <
      increaseQueryCountTrace.indexOf LockEvent.incrementCount ∧
    increaseQueryCountTrace.head? = some LockEvent.lockPendingUpdate ∧
    (∀ n : Int, LockEvent.lockPendingUpdate ∉ decreaseQueryCountTrace n) := by
  refine ⟨by decide, by decide, by decide, ?_⟩
  intro n
  unfold decreaseQueryCountTrace
  split <;> decide

/-- Witness for C10: the non-membership clause evaluated at count 1. -/
theorem increaseQueryCount_lock_order_witness :
    LockEvent.lockPendingUpdate ∉ decreaseQueryCountTrace 1 :=
  increaseQueryCount_lock_order.2.2.2 1

/-- Claim C1: in shared mode `RunQuery` performs, in order: admit
(`IncreaseQueryCount`), acquire the transition lock, the swap-check
block, release the transition lock, the handler call against the
facade current at that point, release (`DecreaseQueryCount`); a
request that triggers the swap runs its handler against the new
generation. -/
theorem runQuery_shared_protocol_order (w : Watchdog) (f : Facade)
    (plugin : Nat → Status) :
    (RunQuery true w f plugin).2.2 =
      [Event.increaseQueryCount, Event.acquireTransition] ++
        (swapBlock w f).2 ++
        [Event.releaseTransition,
         Event.handlerCall (swapBlock w f).1.gen,
         Event.decreaseQueryCount] ∧
    (∀ nf : Facade, w.hasNewRegion = true → w.newFacade = some nf →
      (swapBlock w f).1 = nf ∧
      Event.handlerCall nf.gen ∈ (RunQuery true w f plugin).2.2) := by
  constructor
  · simp [RunQuery]
  · intro nf h1 h2
    have hs : (swapBlock w f).1 = nf := by
      simp [swapBlock, h1, h2]
    refine ⟨hs, ?_⟩
    simp [RunQuery, hs]

/-- Witness for C1: a request observing a new region installs
generation 7 and runs its handler against it. -/
theorem runQuery_shared_protocol_order_witness :
    (swapBlock ⟨true, some ⟨7, 1⟩⟩ ⟨3, 1⟩).1 = ⟨7, 1⟩ ∧
    Event.handlerCall 7 ∈
      (RunQuery true ⟨true, some ⟨7, 1⟩⟩ ⟨3, 1⟩ (fun _ => Status.Ok)).2.2 :=
  (runQuery_shared_protocol_order ⟨true, some ⟨7, 1⟩⟩ ⟨3, 1⟩
    (fun _ => Status.Ok)).2 ⟨7, 1⟩ rfl rfl

/-- Claim C3: in standalone mode (no `EngineLock`) `RunQuery` calls
the handler directly against the single facade and performs no gate
bookkeeping whatsoever: the trace is exactly one handler call, with no
admit, release, or transition-lock/swap events. -/
theorem runQuery_standalone_direct (w : Watchdog) (f : Facade)
    (plugin : Nat → Status) :
    RunQuery false w f plugin = (plugin f.gen, f, [Event.handlerCall f.gen]) ∧
    Event.increaseQueryCount ∉ (RunQuery false w f plugin).2.2 ∧
    Event.decreaseQueryCount ∉ (RunQuery false w f plugin).2.2 ∧
    Event.acquireTransition ∉ (RunQuery false w f plugin).2.2 ∧
    (∀ r : Bool, Event.checkNewRegion r ∉ (RunQuery false w f plugin).2.2) ∧
    (∀ o : Option Facade,
      Event.loadNewRegion o ∉ (RunQuery false w f plugin).2.2) := by
  refine ⟨rfl, ?_, ?_, ?_, ?_, ?_⟩ <;> simp [RunQuery]

/-- Witness for C3: a standalone request against generation 3 is a
bare handler call. -/
theorem runQuery_standalone_direct_witness :
    RunQuery false ⟨true, some ⟨7, 1⟩⟩ ⟨3, 1⟩ (fun _ => Status.Error) =
      (Status.Error, ⟨3, 1⟩, [Event.handlerCall 3]) :=
  (runQuery_standalone_direct ⟨true, some ⟨7, 1⟩⟩ ⟨3, 1⟩
    (fun _ => Status.Error)).1

/-- Claim C4: in shared mode every exit path of `RunQuery` performs
exactly one `DecreaseQueryCount` per `IncreaseQueryCount` — for every
handler, including one reporting an error `Status` — and the
handler's `Status` is returned to the caller unchanged. -/
theorem runQuery_shared_balanced_gate (w : Watchdog) (f : Facade)
    (plugin : Nat → Status) :
    (RunQuery true w f plugin).2.2.count Event.increaseQueryCount = 1 ∧
    (RunQuery true w f plugin).2.2.count Event.decreaseQueryCount = 1 ∧
    (RunQuery true w f plugin).1 = plugin (swapBlock w f).1.gen := by
  obtain ⟨hn, nfo⟩ := w
  refine ⟨?_, ?_, rfl⟩ <;>
    cases hn <;> cases nfo <;> simp [RunQuery, swapBlock, List.count_cons]

/-- Claim C5: the swap block is idempotent absent a newer generation:
when `HasNewRegion()` is false or `MaybeLoadNewRegion()` yields no
facade, the current facade is unchanged, and repeating the call under
the same conditions still leaves it identical. -/
theorem swapBlock_idempotent_no_newer (w : Watchdog) (f : Facade)
    (h : w.hasNewRegion = false ∨ w.newFacade = none) :
    (swapBlock w f).1 = f ∧
    (swapBlock w (swapBlock w f).1).1 = (swapBlock w f).1 := by
  obtain ⟨hn, nfo⟩ := w
  rcases h with h | h
  · simp only at h
    subst h
    simp [swapBlock]
  · simp only at h
    subst h
    cases hn <;> simp [swapBlock]

/-- Witness for C5: with no new region the facade with generation 3 is
untouched by one or two swap checks. -/
theorem swapBlock_idempotent_no_newer_witness :
    (swapBlock ⟨false, none⟩ ⟨3, 1⟩).1 = ⟨3, 1⟩ ∧
    (swapBlock ⟨false, none⟩ (swapBlock ⟨false, none⟩ ⟨3, 1⟩).1).1 =
      (swapBlock ⟨false, none⟩ ⟨3, 1⟩).1 :=
  swapBlock_idempotent_no_newer ⟨false, none⟩ ⟨3, 1⟩ (Or.inl rfl)

/-- Claim C7: inside the swap block the cheap `HasNewRegion()` check
is always the first watchdog interaction, `MaybeLoadNewRegion()` is
invoked only when that check returned true, and in the no-swap case
the block does nothing beyond the check. -/
theorem swapBlock_cheap_check_first (w : Watchdog) (f : Facade) :
    (swapBlock w f).2.head? = some (Event.checkNewRegion w.hasNewRegion) ∧
    (∀ r : Option Facade,
      Event.loadNewRegion r ∈ (swapBlock w f).2 → w.hasNewRegion = true) ∧
    (w.hasNewRegion = false →
      (swapBlock w f).2 = [Event.checkNewRegion false]) := by
  refine ⟨?_, ?_, ?_⟩
  · unfold swapBlock
    split
    · split <;> simp_all
    · simp_all
  · intro r hr
    by_contra hn
    simp only [Bool.not_eq_true] at hn
    simp [swapBlock, hn] at hr
  · intro h
    simp [swapBlock, h]

/-- Witness for C7: at a watchdog whose region check fires, the load
event does occur and the theorem's implication is exercised; with the
check false the block is a bare check. -/
theorem swapBlock_cheap_check_first_witness :
    (⟨true, some ⟨7, 1⟩⟩ : Watchdog).hasNewRegion = true ∧
    (swapBlock ⟨false, some ⟨7, 1⟩⟩ ⟨3, 1⟩).2 = [Event.checkNewRegion false] :=
  ⟨(swapBlock_cheap_check_first ⟨true, some ⟨7, 1⟩⟩ ⟨3, 1⟩).2.1
      (some ⟨7, 1⟩) (by decide),
   (swapBlock_cheap_check_first ⟨false, some ⟨7, 1⟩⟩ ⟨3, 1⟩).2.2 rfl⟩

/-- Claim C9: whenever the swap block replaces the facade with a newly
loaded one, it asserts that the outgoing facade's `use_count()` is the
value held at the moment of exchange (the `BOOST_ASSERT` on
`use_count() == 1`), destroys the old generation right there, never
waits for quiescence, and performs the exchange regardless of the
actual reference count (the assert does not enforce anything). -/
theorem swapBlock_assert_and_destroy (w : Watchdog) (f nf : Facade)
    (h1 : w.hasNewRegion = true) (h2 : w.newFacade = some nf) :
    (swapBlock w f).1 = nf ∧
    Event.assertUseCountOne f.useCount ∈ (swapBlock w f).2 ∧
    Event.destroyOld f.gen ∈ (swapBlock w f).2 ∧
    Event.waitQuiescence ∉ (swapBlock w f).2 ∧
    (∀ k : Nat, (swapBlock w ⟨f.gen, k⟩).1 = nf) := by
  refine ⟨?_, ?_, ?_, ?_, ?_⟩ <;> simp [swapBlock, h1, h2]

/-- Witness for C9: swapping out a facade with use count 5 (not 1)
still destroys it and installs generation 7 — the assertion is a
check, not an enforcement. -/
theorem swapBlock_assert_and_destroy_witness :
    (swapBlock ⟨true, some ⟨7, 1⟩⟩ ⟨3, 5⟩).1 = ⟨7, 1⟩ ∧
    Event.assertUseCountOne 5 ∈ (swapBlock ⟨true, some ⟨7, 1⟩⟩ ⟨3, 5⟩).2 ∧
    Event.destroyOld 3 ∈ (swapBlock ⟨true, some ⟨7, 1⟩⟩ ⟨3, 5⟩).2 ∧
    Event.waitQuiescence ∉ (swapBlock ⟨true, some ⟨7, 1⟩⟩ ⟨3, 5⟩).2 ∧
    (∀ k : Nat, (swapBlock ⟨true, some ⟨7, 1⟩⟩ ⟨3, k⟩).1 = ⟨7, 1⟩) :=
  swapBlock_assert_and_destroy ⟨true, some ⟨7, 1⟩⟩ ⟨3, 5⟩ ⟨7, 1⟩ rfl rfl

/-- `EngineConfig` as consumed by the constructor:
`use_shared_memory` selects shared mode, `storageConfigValid` is what
`config.storage_config.IsValid()` returns. -/
structure EngineConfig where
  use_shared_memory : Bool
  storageConfigValid : Bool
deriving DecidableEq, Repr

/-- The dispatcher state the constructor establishes: whether the
`EngineLock` gate exists, and the `query_data_facade` handle. -/
structure EngineState where
  hasGate : Bool
  query_data_facade : Option Facade
deriving DecidableEq, Repr

/-- Modelled from the spec: the `DataWatchdog` internals
(`data_watchdog.hpp`) are not under src/.  `published` is the dataset
generation currently published in shared memory, if any;
`DataWatchdog::TryConnect()` succeeds exactly when one is
discoverable, and at startup `MaybeLoadNewRegion()` loads the
published generation. -/
def tryConnect (published : Option Facade) : Bool := published.isSome

/-- `Engine::Engine` (engine.cpp lines 146-180): in shared mode,
create the gate, fail when `DataWatchdog::TryConnect()` finds no
shared memory blocks, otherwise load the published region; in
standalone mode, fail when the storage config is invalid, otherwise
build an `InternalDataFacade` (modelled as generation 0). -/
def engineConstruct (config : EngineConfig) (published : Option Facade) :
    Except String EngineState :=
  if config.use_shared_memory then
    if !tryConnect published then
      Except.error
        "No shared memory blocks found, have you forgotten to run osrm-datastore?"
    else
      Except.ok { hasGate := true, query_data_facade := published }
  else
    if !config.storageConfigValid then
      Except.error "Invalid file paths given!"
    else
      Except.ok { hasGate := false, query_data_facade := some ⟨0, 1⟩ }

/-- Claim C8: construction fails exactly when shared mode finds no
published generation or standalone mode has an invalid dataset
location; in every other case it yields a dispatcher holding a valid
current handle. -/
theorem engineConstruct_failure_cases (config : EngineConfig)
    (published : Option Facade) :
    ((∃ e, engineConstruct config published = Except.error e) ↔
      (config.use_shared_memory = true ∧ published = none) ∨
      (config.use_shared_memory = false ∧ config.storageConfigValid = false)) ∧
    (∀ st : EngineState, engineConstruct config published = Except.ok st →
      st.query_data_facade.isSome = true) := by
  obtain ⟨shm, valid⟩ := config
  cases shm <;> cases valid <;> cases published <;>
    simp [engineConstruct, tryConnect]

/-- Witness for C8: shared mode with no published generation fails,
and a successful shared-mode construction holds a facade. -/
theorem engineConstruct_failure_cases_witness :
    (∃ e, engineConstruct ⟨true, true⟩ none = Except.error e) ∧
    (({ hasGate := true, query_data_facade := some ⟨7, 1⟩ } :
        EngineState).query_data_facade.isSome = true) :=
  ⟨(engineConstruct_failure_cases ⟨true, true⟩ none).1.mpr
      (Or.inl ⟨rfl, rfl⟩),
   (engineConstruct_failure_cases ⟨true, true⟩ (some ⟨7, 1⟩)).2
      { hasGate := true, query_data_facade := some ⟨7, 1⟩ } rfl⟩

end Osrm
